import Mathlib

/-!
Shallow embedding of the `freepbx-graphql-client` library (current version of
the main module) together with the legacy `index.js` credential manager where a
claim cites it.  Server interaction is modelled by oracles: a stream of
responses to the transaction-status query for the poller, and oracles for the
OAuth token endpoint and the underlying GraphQL attempts for the request path.
Because the JavaScript poller can recurse without bound on corrupted
responses, it is embedded with an explicit fuel parameter: `none` means the
computation has not terminated within `fuel` recursive calls.
-/

namespace FreepbxGql

/-- Network connection error codes the client treats as transient
(`connectionErrors` in the source). -/
def connectionErrors : List String :=
  ["ECONNREFUSED", "ECONNRESET", "ETIMEDOUT", "ENOTFOUND"]

/-- Return the oAuth endpoint given the baseUrl (`getOAuthEndpoint`). -/
def getOAuthEndpoint (baseUrl : String) : String :=
  baseUrl ++ "/admin/api/api/token"

/-- Return the GraphQL endpoint given the baseUrl (`getGqlEndpoint`). -/
def getGqlEndpoint (baseUrl : String) : String :=
  baseUrl ++ "/admin/api/api/gql"

/-- A JavaScript error value as inspected by the client: an optional `code`
field, a `message`, and the HTTP status of an attached `response` when one is
present (`err.response.status`). -/
structure JsErr where
  code : Option String
  message : String
  responseStatus : Option Nat
deriving DecidableEq, Repr

/-- `retryNetworkError(err)`: true when `err.code` is truthy and one of the
connection errors, or the message is exactly "Client request timeout". -/
def retryNetworkError (e : JsErr) : Bool :=
  (match e.code with
   | some c => (!(c = "")) && connectionErrors.contains c
   | none => false)
  || e.message = "Client request timeout"

/-- JavaScript truthiness of an optional string field: `undefined`, `null`
and the empty string are falsy. -/
def truthyStr : Option String → Bool
  | none => false
  | some s => !(s = "")

/-- The `fetchApiStatus` payload of a status response.  In JavaScript the
`status` field can hold any value; the branches compare with `=== true` and
`=== false`, so a non-boolean (e.g. `null`) value matches neither.  `none`
stands for an absent or null field. -/
structure ApiStatus where
  status : Option Bool
  message : Option String
deriving DecidableEq, Repr

/-- One server response to the status query: either corrupted (falsy `data`
or missing `fetchApiStatus`) or carrying a payload. -/
inductive StatusData where
  | malformed
  | ok (fetchApiStatus : ApiStatus)
deriving DecidableEq, Repr

/-- Terminal outcome of the polling loop, carrying the payload the source
returns (success) or attaches to the thrown error (`err.results`). -/
inductive WaitOutcome where
  | success (results : ApiStatus)
  | failure (results : ApiStatus)
  | timeout (results : ApiStatus)
deriving DecidableEq, Repr

/-- `waitForTransactionSuccess(transactionId, retries, retryDelay)` embedded
over the stream `fetch` of status-query results (`fetch i` is the result of
the `i`-th `fetchTransactionStatus` call).  Mirrors the source branch by
branch; `retries` is an integer because the corrupted-response branch
decrements it without a lower bound.  Returns the outcome together with the
number of status fetches issued and the number of poll delays awaited, or
`none` when the loop has not terminated within `fuel` iterations. -/
def waitForTransactionSuccess (fetch : Nat → StatusData) :
    Nat → Nat → Int → Option (WaitOutcome × Nat × Nat)
  | 0, _, _ => none
  | fuel + 1, idx, retries =>
    match fetch idx with
    | .malformed =>
      -- corrupted response: delay and fetch again, no bound check
      (waitForTransactionSuccess fetch fuel (idx + 1) (retries - 1)).map
        (fun r => (r.1, r.2.1 + 1, r.2.2 + 1))
    | .ok s =>
      if s.status = some true ∧ s.message = some "Executed" then
        some (.success s, 1, 0)
      else if 0 < retries ∧ s.status = some true ∧ s.message = some "Processing" then
        (waitForTransactionSuccess fetch fuel (idx + 1) (retries - 1)).map
          (fun r => (r.1, r.2.1 + 1, r.2.2 + 1))
      else if s.status = some false ∨ s.message ≠ some "Processing" then
        some (.failure s, 1, 0)
      else
        some (.timeout s, 1, 0)

/-- The envelope under a top-level key of a transaction-mutation response;
`transaction_id` is `none` when the field is absent. -/
structure TransEnvelope where
  transaction_id : Option String
deriving DecidableEq, Repr

/-- Result of `requestTransactionAndWait`: either the raw TypeError raised by
reading `transaction_id` off `undefined` (empty response object), or the
polling loop run with the extracted transaction id. -/
inductive RtawOutcome where
  | typeErr
  | polled (txnId : Option String) (result : Option (WaitOutcome × Nat × Nat))
deriving DecidableEq, Repr

/-- `requestTransactionAndWait(query, variables, retries, retryDelay)` after
the mutation has resolved: the response object is its list of top-level
(key, envelope) bindings in insertion order (the order `Object.keys` yields).
The source takes the value of the first key, dereferences `transaction_id`
(a TypeError when the object has no keys, since indexing with `undefined`
yields `undefined`), and delegates to the polling loop with that id; `fetchFor
txnId` is the stream of status results the server produces for `txnId`. -/
def requestTransactionAndWait (fetchFor : Option String → Nat → StatusData)
    (queryResponse : List (String × TransEnvelope))
    (retries : Int) (fuel : Nat) : RtawOutcome :=
  match queryResponse with
  | [] => .typeErr
  | (_, env) :: _ =>
    .polled env.transaction_id
      (waitForTransactionSuccess (fetchFor env.transaction_id) fuel 0 retries)

/-- A status stream whose every element is corrupted. -/
def malformedStream : Nat → StatusData := fun _ => .malformed

/-- A status stream that always reports `{status: true, message: "Processing"}`. -/
def processingStream : Nat → StatusData :=
  fun _ => .ok ⟨some true, some "Processing"⟩

/-- JSON body of a response from the OAuth token endpoint together with its
HTTP status; `access_token` is `none` when the field is absent. -/
structure FetchResponse where
  status : Nat
  access_token : Option String
deriving DecidableEq, Repr

/-- Observable external events of the request path: an OAuth POST to the token
endpoint (tagged with its fetch index), an underlying GraphQL attempt (tagged
with its attempt index), and an awaited delay of `ms` milliseconds. -/
inductive Ev where
  | oauth (fetchIdx : Nat)
  | gql (attemptIdx : Nat)
  | wait (ms : Nat)
deriving DecidableEq, Repr

/-- The instance-scoped mutable state: the cached access token
(`#gqlAccessToken`) and the cached GraphQL client handle (`#gqlClient`).  The
handle carries the token it was bound to at build time (the
`Authorization: Bearer` header). -/
structure ClientState where
  gqlAccessToken : Option String
  gqlClient : Option (Option String)
deriving DecidableEq, Repr

/-- Client state plus the oracle cursors: `aIdx` is the index of the next
underlying GraphQL attempt, `fIdx` of the next OAuth fetch. -/
structure World where
  st : ClientState
  aIdx : Nat
  fIdx : Nat
deriving DecidableEq, Repr

/-- Server oracles: the result of the `i`-th OAuth fetch and of the `i`-th
underlying `gqlClient.request` attempt (payload is opaque). -/
structure Server where
  authFetch : Nat → Except JsErr FetchResponse
  gqlAttempt : Nat → Except JsErr String

/-- Configured options of the client (`retry` and `retryDelay` after merging
with `defaultConfig`). -/
structure Config where
  retry : Nat
  retryDelay : Nat
deriving DecidableEq, Repr

/-- `authenticateRequestWithRetry(retries, retryDelay)`: POST to the token
endpoint; on a network error with budget left (`retries > 0` in the source,
rendered as the `retries = n + 1` pattern), wait `retryDelay` and retry with
the budget decremented and the delay doubled; otherwise re-throw.  Returns the
result, the trace of events, and the next fetch index. -/
def authenticateRequestWithRetry (srv : Server) (retries retryDelay fIdx : Nat) :
    Except JsErr FetchResponse × List Ev × Nat :=
  match srv.authFetch fIdx with
  | .ok r => (.ok r, [Ev.oauth fIdx], fIdx + 1)
  | .error e =>
    if h : 0 < retries ∧ retryNetworkError e then
      let r1 := authenticateRequestWithRetry srv (retries - 1) (retryDelay * 2) (fIdx + 1)
      (r1.1, Ev.oauth fIdx :: Ev.wait retryDelay :: r1.2.1, r1.2.2)
    else
      (.error e, [Ev.oauth fIdx], fIdx + 1)
termination_by retries
decreasing_by omega

/-- `authenticate()` (current module): always performs the OAuth exchange via
`authenticateRequestWithRetry` with the configured budget, throws
"Authentication Failed" on a non-200 status, otherwise caches and returns
`access_token`. -/
def authenticate (srv : Server) (cfg : Config) (w : World) :
    Except JsErr (Option String) × List Ev × World :=
  let ar := authenticateRequestWithRetry srv cfg.retry cfg.retryDelay w.fIdx
  match ar.1 with
  | .error e => (.error e, ar.2.1, { w with fIdx := ar.2.2 })
  | .ok authResult =>
    if authResult.status ≠ 200 then
      (.error ⟨none, "Authentication Failed", none⟩, ar.2.1, { w with fIdx := ar.2.2 })
    else
      (.ok authResult.access_token, ar.2.1,
        { st := { w.st with gqlAccessToken := authResult.access_token },
          aIdx := w.aIdx, fIdx := ar.2.2 })

/-- `buildClient()`: a no-op when a client handle is cached; otherwise runs
the source's `if (!this.#gqlAccessToken)` truthiness guard — authenticating
when the cached token is absent or the (falsy) empty string — then builds the
handle bound to the current token. -/
def buildClient (srv : Server) (cfg : Config) (w : World) :
    Except JsErr Unit × List Ev × World :=
  match w.st.gqlClient with
  | some _ => (.ok (), [], w)
  | none =>
    let a1 := if truthyStr w.st.gqlAccessToken
      then ((.ok w.st.gqlAccessToken : Except JsErr (Option String)), ([] : List Ev), w)
      else authenticate srv cfg w
    match a1.1 with
    | .error e => (.error e, a1.2.1, a1.2.2)
    | .ok _ =>
      let w1 := a1.2.2
      (.ok (), a1.2.1,
        { w1 with st := { w1.st with gqlClient := some w1.st.gqlAccessToken } })

/-- `requestWithRetry(retries, retryDelay, query, variables)`: build the
client (propagating an authentication failure), issue the underlying GraphQL
attempt, and on error: with budget left (`retries > 0`, rendered as the
`retries = n + 1` pattern) either wait `retryDelay` and retry with a doubled
delay (transient network error), or — on a 401 response — clear both the
cached token and the cached handle and retry immediately with no delay and an
unchanged `retryDelay`; otherwise re-throw the error unchanged. -/
def requestWithRetry (srv : Server) (cfg : Config) (retries retryDelay : Nat)
    (w : World) : Except JsErr String × List Ev × World :=
  let b := buildClient srv cfg w
  match b.1 with
  | .error e => (.error e, b.2.1, b.2.2)
  | .ok _ =>
    let w1 := b.2.2
    match srv.gqlAttempt w1.aIdx with
    | .ok payload =>
      (.ok payload, b.2.1 ++ [Ev.gql w1.aIdx], { w1 with aIdx := w1.aIdx + 1 })
    | .error e =>
      if h1 : 0 < retries ∧ retryNetworkError e then
        let r1 := requestWithRetry srv cfg (retries - 1) (retryDelay * 2)
          { w1 with aIdx := w1.aIdx + 1 }
        (r1.1, b.2.1 ++ Ev.gql w1.aIdx :: Ev.wait retryDelay :: r1.2.1, r1.2.2)
      else if h2 : 0 < retries ∧ e.responseStatus = some 401 then
        let r1 := requestWithRetry srv cfg (retries - 1) retryDelay
          ⟨⟨none, none⟩, w1.aIdx + 1, w1.fIdx⟩
        (r1.1, b.2.1 ++ Ev.gql w1.aIdx :: r1.2.1, r1.2.2)
      else
        (.error e, b.2.1 ++ [Ev.gql w1.aIdx], { w1 with aIdx := w1.aIdx + 1 })
termination_by retries
decreasing_by
  · omega
  · omega

/-- `request(query, variables)`: `requestWithRetry` with the configured budget
and initial delay. -/
def request (srv : Server) (cfg : Config) (w : World) :
    Except JsErr String × List Ev × World :=
  requestWithRetry srv cfg cfg.retry cfg.retryDelay w

/-- `getOAuthAccessToken()` of the legacy `index.js` module: the source's
`if (this.#gqlAccessToken)` truthiness guard returns the cached token without
touching the network only when it is truthy (a cached empty string is falsy
and falls through); otherwise a single OAuth fetch, failing on a non-200
status, else caching and returning `access_token`. -/
def getOAuthAccessToken (srv : Server) (w : World) :
    Except JsErr (Option String) × List Ev × World :=
  if truthyStr w.st.gqlAccessToken then
    (.ok w.st.gqlAccessToken, [], w)
  else
    match srv.authFetch w.fIdx with
    | .error e => (.error e, [Ev.oauth w.fIdx], { w with fIdx := w.fIdx + 1 })
    | .ok authResult =>
      if authResult.status ≠ 200 then
        (.error ⟨none, "Authentication Failed", none⟩, [Ev.oauth w.fIdx],
          { w with fIdx := w.fIdx + 1 })
      else
        (.ok authResult.access_token, [Ev.oauth w.fIdx],
          { st := { w.st with gqlAccessToken := authResult.access_token },
            aIdx := w.aIdx, fIdx := w.fIdx + 1 })

/-- Expected event trace of `requestWithRetry` when every attempt fails with
a transient network error: attempts interleaved with doubling delays. -/
def transientTrace (a0 D : Nat) : Nat → List Ev
  | 0 => [Ev.gql a0]
  | n + 1 => Ev.gql a0 :: Ev.wait D :: transientTrace (a0 + 1) (D * 2) n

/-- The `client` sub-object of the constructor's `config` argument; fields are
`none` when absent. -/
structure ClientCredentials where
  id : Option String
  secret : Option String
deriving DecidableEq, Repr

/-- The constructor's `config` argument. -/
structure ConstructorConfig where
  client : Option ClientCredentials
  debug : Option Bool
  retry : Option Nat
  retryDelay : Option Nat
deriving DecidableEq, Repr

/-- The fields a successfully constructed `FreepbxGqlClient` instance holds
(the two cache fields start absent). -/
structure ClientInstance where
  oAuthClientId : String
  oAuthClientSecret : String
  oAuthEndpoint : String
  gqlEndpoint : String
  cfgDebug : Bool
  cfgRetry : Nat
  cfgRetryDelay : Nat
deriving DecidableEq, Repr

/-- The `FreepbxGqlClient` constructor (current module): validates
`config.client`, `config.client.id`, `config.client.secret` with JavaScript
truthiness checks, throwing synchronously, then derives the endpoints and
merges `config` over `defaultConfig` (`debug: false, retry: 5,
retryDelay: 1000`).  No network request is issued. -/
def constructClient (baseUrl : String) (config : ConstructorConfig) :
    Except String ClientInstance :=
  match config.client with
  | none => .error "Missing client configuration"
  | some c =>
    if !truthyStr c.id then .error "Missing client id"
    else if !truthyStr c.secret then .error "Missing client secret"
    else .ok
      { oAuthClientId := c.id.getD ""
        oAuthClientSecret := c.secret.getD ""
        oAuthEndpoint := getOAuthEndpoint baseUrl
        gqlEndpoint := getGqlEndpoint baseUrl
        cfgDebug := config.debug.getD false
        cfgRetry := config.retry.getD 5
        cfgRetryDelay := config.retryDelay.getD 1000 }

/-- C1: on a server whose every status response is corrupted (missing
`fetchApiStatus`), `waitForTransactionSuccess` never terminates, for any
starting poll budget and any amount of fuel: the corrupted-response branch
decrements the budget but never checks it, so the shared poll budget does not
bound the number of status fetches and the loop diverges, contradicting the
claimed termination. -/
theorem c1_malformed_never_terminates :
    ∀ (fuel idx : Nat) (retries : Int),
      waitForTransactionSuccess malformedStream fuel idx retries = none := by
  intro fuel
  induction fuel with
  | zero => intro idx retries; rfl
  | succ n ih =>
    intro idx retries
    simp [waitForTransactionSuccess, malformedStream, ih]

/-- C2 counterexample: with `maxPolls = 2` and a server that always answers
`{status: true, message: "Processing"}`, the poller issues 3 status fetches
(with 2 poll delays) before raising the timeout error, not the claimed 2. -/
theorem c2_counterexample :
    waitForTransactionSuccess processingStream 4 0 2 =
      some (.timeout ⟨some true, some "Processing"⟩, 3, 2) ∧ (3 : Nat) ≠ 2 := by
  exact ⟨by decide, by decide⟩

/-- C2 amended: with `maxPolls = n` and a server that always answers
`{status: true, message: "Processing"}`, `waitForTransactionSuccess` raises
the timeout error after exactly `n + 1` status fetches (the initial poll plus
`n` retries) and `n` poll delays. -/
theorem c2_amended_processing_timeout (n fuel idx : Nat) (hfuel : n + 1 ≤ fuel) :
    waitForTransactionSuccess processingStream fuel idx (n : Int) =
      some (.timeout ⟨some true, some "Processing"⟩, n + 1, n) := by
  induction n generalizing fuel idx with
  | zero =>
    obtain ⟨f, rfl⟩ : ∃ f, fuel = f + 1 := ⟨fuel - 1, by omega⟩
    simp [waitForTransactionSuccess, processingStream]
  | succ m ih =>
    obtain ⟨f, rfl⟩ : ∃ f, fuel = f + 1 := ⟨fuel - 1, by omega⟩
    have hcast : (((m + 1 : Nat) : Int)) - 1 = (m : Int) := by push_cast; ring
    have hpos : (0 : Int) < ((m + 1 : Nat) : Int) := by positivity
    simp only [waitForTransactionSuccess, processingStream]
    rw [if_neg (by simp), if_pos ⟨hpos, by simp⟩, hcast, ih f (idx + 1) (by omega)]
    rfl

/-- C2 amended witness: the amended count instantiated at `maxPolls = 2`. -/
theorem c2_amended_processing_timeout_witness :
    2 + 1 ≤ 4 ∧
    waitForTransactionSuccess processingStream 4 0 ((2 : Nat) : Int) =
      some (.timeout ⟨some true, some "Processing"⟩, 2 + 1, 2) :=
  ⟨by decide, c2_amended_processing_timeout 2 4 0 (by decide)⟩

/-- C6: a well-formed status response with `status === false`, or with
`status === true` and a message that is neither "Executed" nor "Processing",
makes `waitForTransactionSuccess` raise the failure `TransactionError`
carrying that payload at once: one status fetch (the one that produced it)
and zero poll delays, for any remaining budget. -/
theorem c6_failure_immediate (fetch : Nat → StatusData) (idx : Nat)
    (retries : Int) (fuel : Nat) (s : ApiStatus)
    (hresp : fetch idx = .ok s)
    (hfail : s.status = some false ∨
      (s.status = some true ∧ s.message ≠ some "Executed" ∧
        s.message ≠ some "Processing")) :
    waitForTransactionSuccess fetch (fuel + 1) idx retries =
      some (.failure s, 1, 0) := by
  rcases hfail with h | ⟨h1, h2, h3⟩
  · simp [waitForTransactionSuccess, hresp, h]
  · simp [waitForTransactionSuccess, hresp, h1, h2, h3]

/-- C6 witness: a concrete run on the response `{status: false}`. -/
theorem c6_failure_immediate_witness :
    (fun _ => StatusData.ok ⟨some false, none⟩) 0 = StatusData.ok ⟨some false, none⟩ ∧
    waitForTransactionSuccess (fun _ => StatusData.ok ⟨some false, none⟩) 1 0 5 =
      some (.failure ⟨some false, none⟩, 1, 0) :=
  ⟨rfl, c6_failure_immediate _ 0 5 0 _ rfl (Or.inl rfl)⟩

/-- C9 counterexample: the response `{status: null, message: "Processing"}`
matches neither the strict boolean comparisons nor the failure disjunction, so
the timeout error is raised immediately — with a full budget remaining — and
its payload does not have `status === true`. -/
theorem c9_counterexample :
    waitForTransactionSuccess (fun _ => .ok ⟨none, some "Processing"⟩) 1 0 5 =
      some (.timeout ⟨none, some "Processing"⟩, 1, 0) ∧
    (⟨none, some "Processing"⟩ : ApiStatus).status ≠ some true := by
  exact ⟨by decide, by decide⟩

/-- C9 amended: whenever `waitForTransactionSuccess` raises the timeout
error, the attached payload has `message = "Processing"` and a `status` field
that is not strictly `false` (it is `true` or a non-boolean such as null);
the timeout branch is unreachable from any other observed status. -/
theorem c9_amended_timeout_payload :
    ∀ (fetch : Nat → StatusData) (fuel idx : Nat) (retries : Int)
      (s : ApiStatus) (p d : Nat),
      waitForTransactionSuccess fetch fuel idx retries =
        some (.timeout s, p, d) →
      s.message = some "Processing" ∧ s.status ≠ some false := by
  intro fetch fuel
  induction fuel with
  | zero =>
    intro idx retries s p d h
    exact absurd h (by simp [waitForTransactionSuccess])
  | succ n ih =>
    intro idx retries s p d h
    cases hfi : fetch idx with
    | malformed =>
      simp only [waitForTransactionSuccess, hfi, Option.map_eq_some'] at h
      obtain ⟨⟨o, p1, d1⟩, ho, hmk⟩ := h
      simp only [Prod.mk.injEq] at hmk
      obtain ⟨ho1, _, _⟩ := hmk
      exact ih (idx + 1) (retries - 1) s p1 d1 (by rw [ho, ho1])
    | ok s0 =>
      simp only [waitForTransactionSuccess, hfi] at h
      split_ifs at h with h1 h2 h3
      · simp at h
      · simp only [Option.map_eq_some'] at h
        obtain ⟨⟨o, p1, d1⟩, ho, hmk⟩ := h
        simp only [Prod.mk.injEq] at hmk
        obtain ⟨ho1, _, _⟩ := hmk
        exact ih (idx + 1) (retries - 1) s p1 d1 (by rw [ho, ho1])
      · simp at h
      · simp only [Option.some.injEq, Prod.mk.injEq, WaitOutcome.timeout.injEq] at h
        obtain ⟨hs, _, _⟩ := h
        push_neg at h3
        subst hs
        exact ⟨h3.2, h3.1⟩

/-- C9 amended witness: the amended property instantiated on a concrete
timeout run. -/
theorem c9_amended_timeout_payload_witness :
    (⟨none, some "Processing"⟩ : ApiStatus).message = some "Processing" ∧
    (⟨none, some "Processing"⟩ : ApiStatus).status ≠ some false :=
  c9_amended_timeout_payload (fun _ => .ok ⟨none, some "Processing"⟩) 1 0 5
    ⟨none, some "Processing"⟩ 1 0 (by decide)

/-- C7: `requestTransactionAndWait` takes the envelope under the first
top-level key of the mutation response — whatever that key's name is —
extracts its `transaction_id`, and delegates to the polling loop with exactly
that id; the result is unchanged by renaming the first key or by any later
entries. -/
theorem c7_first_key_envelope :
    ∀ (fetchFor : Option String → Nat → StatusData) (k k2 : String)
      (env : TransEnvelope) (rest rest2 : List (String × TransEnvelope))
      (retries : Int) (fuel : Nat),
      requestTransactionAndWait fetchFor ((k, env) :: rest) retries fuel =
        RtawOutcome.polled env.transaction_id
          (waitForTransactionSuccess (fetchFor env.transaction_id) fuel 0 retries) ∧
      requestTransactionAndWait fetchFor ((k, env) :: rest) retries fuel =
        requestTransactionAndWait fetchFor ((k2, env) :: rest2) retries fuel := by
  intro fetchFor k k2 env rest rest2 retries fuel
  exact ⟨rfl, rfl⟩

/-- C10: a mutation response with no top-level fields makes
`requestTransactionAndWait` fail with the raw TypeError from dereferencing
`transaction_id` on an absent envelope, which is distinct from every polled
outcome (in particular from any `TransactionError` carrying a payload). -/
theorem c10_empty_response_type_error :
    ∀ (fetchFor : Option String → Nat → StatusData) (retries : Int)
      (fuel : Nat) (txnId : Option String)
      (res : Option (WaitOutcome × Nat × Nat)),
      requestTransactionAndWait fetchFor [] retries fuel = RtawOutcome.typeErr ∧
      RtawOutcome.typeErr ≠ RtawOutcome.polled txnId res := by
  intro fetchFor retries fuel txnId res
  exact ⟨rfl, by simp⟩

theorem authenticateRequestWithRetry_trace_head (srv : Server) (n d f : Nat) :
    ∃ t, (authenticateRequestWithRetry srv n d f).2.1 = Ev.oauth f :: t := by
  rw [authenticateRequestWithRetry.eq_def]
  cases hf : srv.authFetch f with
  | ok r => exact ⟨[], rfl⟩
  | error e =>
    by_cases hn : 0 < n ∧ retryNetworkError e
    · refine ⟨Ev.wait d :: (authenticateRequestWithRetry srv (n - 1) (d * 2) (f + 1)).2.1, ?_⟩
      simp [hn]
    · exact ⟨[], by simp [hn]⟩

theorem authenticate_trace (srv : Server) (cfg : Config) (w : World) :
    (authenticate srv cfg w).2.1 =
      (authenticateRequestWithRetry srv cfg.retry cfg.retryDelay w.fIdx).2.1 := by
  rcases har : authenticateRequestWithRetry srv cfg.retry cfg.retryDelay w.fIdx
    with ⟨res, evs, f2⟩
  rcases res with e | r
  · simp [authenticate, har]
  · by_cases h200 : r.status ≠ 200 <;> simp [authenticate, har, h200]

theorem buildClient_cleared_trace (srv : Server) (cfg : Config) (a f : Nat) :
    (buildClient srv cfg ⟨⟨none, none⟩, a, f⟩).2.1 =
      (authenticate srv cfg ⟨⟨none, none⟩, a, f⟩).2.1 := by
  rcases ha : authenticate srv cfg ⟨⟨none, none⟩, a, f⟩ with ⟨res, evs, w2⟩
  rcases res with e | t
  · simp [buildClient, truthyStr, ha]
  · simp [buildClient, truthyStr, ha]

theorem requestWithRetry_trace_prefix (srv : Server) (cfg : Config)
    (n d : Nat) (w : World) : ∃ t,
      (requestWithRetry srv cfg n d w).2.1 = (buildClient srv cfg w).2.1 ++ t := by
  rw [requestWithRetry.eq_def]
  dsimp only
  split
  · exact ⟨[], by simp⟩
  · split
    · exact ⟨_, rfl⟩
    · split
      · exact ⟨_, rfl⟩
      · split
        · exact ⟨_, rfl⟩
        · exact ⟨_, rfl⟩

theorem requestWithRetry_cleared_trace_head (srv : Server) (cfg : Config)
    (n d a f : Nat) : ∃ t,
      (requestWithRetry srv cfg n d ⟨⟨none, none⟩, a, f⟩).2.1 =
        Ev.oauth f :: t := by
  obtain ⟨t1, ht1⟩ := requestWithRetry_trace_prefix srv cfg n d ⟨⟨none, none⟩, a, f⟩
  obtain ⟨t2, ht2⟩ := authenticateRequestWithRetry_trace_head srv cfg.retry cfg.retryDelay f
  refine ⟨t2 ++ t1, ?_⟩
  rw [ht1, buildClient_cleared_trace, authenticate_trace]
  simp only [ht2]
  rfl

/-- C3: when the underlying GraphQL attempt fails with a 401 response, is not
classified as a network error, and retry budget remains, `requestWithRetry`
recurses on a state with both the cached access token and the cached client
handle cleared, with the delay parameter unchanged; no `wait` event separates
the failed attempt from what follows, and the following internal attempt
begins with a fresh OAuth exchange (an `oauth` event precedes its `gql`
event). -/
theorem c3_auth_expiry_reauths (srv : Server) (cfg : Config) (n d : Nat)
    (st : ClientState) (a f : Nat) (h0 : Option String) (e : JsErr)
    (hclient : st.gqlClient = some h0)
    (hatt : srv.gqlAttempt a = .error e)
    (hnet : retryNetworkError e = false)
    (h401 : e.responseStatus = some 401) :
    requestWithRetry srv cfg (n + 1) d ⟨st, a, f⟩ =
      ((requestWithRetry srv cfg n d ⟨⟨none, none⟩, a + 1, f⟩).1,
       Ev.gql a :: (requestWithRetry srv cfg n d ⟨⟨none, none⟩, a + 1, f⟩).2.1,
       (requestWithRetry srv cfg n d ⟨⟨none, none⟩, a + 1, f⟩).2.2) ∧
    ∃ tail, (requestWithRetry srv cfg n d ⟨⟨none, none⟩, a + 1, f⟩).2.1 =
      Ev.oauth f :: tail := by
  constructor
  · rw [requestWithRetry.eq_def]
    simp [buildClient, hclient, hatt, hnet, h401]
  · exact requestWithRetry_cleared_trace_head srv cfg n d (a + 1) f

/-- C3 witness: a concrete 401 failure with a cached handle; the retry
re-authenticates and succeeds. -/
theorem c3_auth_expiry_reauths_witness :
    (⟨some "t", some (some "t")⟩ : ClientState).gqlClient = some (some "t") ∧
    (Server.mk (fun _ => .ok ⟨200, some "tok"⟩)
      (fun i => if i = 0 then .error ⟨none, "Unauthorized", some 401⟩
                else .ok "payload")).gqlAttempt 0 =
      .error ⟨none, "Unauthorized", some 401⟩ ∧
    retryNetworkError ⟨none, "Unauthorized", some 401⟩ = false ∧
    (⟨none, "Unauthorized", some 401⟩ : JsErr).responseStatus = some 401 ∧
    (requestWithRetry (Server.mk (fun _ => .ok ⟨200, some "tok"⟩)
        (fun i => if i = 0 then .error ⟨none, "Unauthorized", some 401⟩
                  else .ok "payload")) ⟨5, 1000⟩ (2 + 1) 9
        ⟨⟨some "t", some (some "t")⟩, 0, 0⟩ =
      ((requestWithRetry (Server.mk (fun _ => .ok ⟨200, some "tok"⟩)
          (fun i => if i = 0 then .error ⟨none, "Unauthorized", some 401⟩
                    else .ok "payload")) ⟨5, 1000⟩ 2 9 ⟨⟨none, none⟩, 0 + 1, 0⟩).1,
       Ev.gql 0 :: (requestWithRetry (Server.mk (fun _ => .ok ⟨200, some "tok"⟩)
          (fun i => if i = 0 then .error ⟨none, "Unauthorized", some 401⟩
                    else .ok "payload")) ⟨5, 1000⟩ 2 9 ⟨⟨none, none⟩, 0 + 1, 0⟩).2.1,
       (requestWithRetry (Server.mk (fun _ => .ok ⟨200, some "tok"⟩)
          (fun i => if i = 0 then .error ⟨none, "Unauthorized", some 401⟩
                    else .ok "payload")) ⟨5, 1000⟩ 2 9 ⟨⟨none, none⟩, 0 + 1, 0⟩).2.2) ∧
     ∃ tail, (requestWithRetry (Server.mk (fun _ => .ok ⟨200, some "tok"⟩)
        (fun i => if i = 0 then .error ⟨none, "Unauthorized", some 401⟩
                  else .ok "payload")) ⟨5, 1000⟩ 2 9 ⟨⟨none, none⟩, 0 + 1, 0⟩).2.1 =
       Ev.oauth 0 :: tail) :=
  ⟨rfl, rfl, rfl, rfl,
    c3_auth_expiry_reauths _ ⟨5, 1000⟩ 2 9 ⟨some "t", some (some "t")⟩ 0 0
      (some "t") ⟨none, "Unauthorized", some 401⟩ rfl rfl rfl rfl⟩

/-- C4: with a cached client handle, when every underlying GraphQL attempt
fails with an error classified as a transient network error, a call with
budget `N` and initial delay `D` issues exactly `N + 1` attempts (the
original call plus `N` retries) interleaved with waits of `D, 2D, 4D, ...`,
leaves the cached state untouched, and finally re-raises the last underlying
error unchanged. -/
theorem c4_transient_retry_exhaustion (srv : Server) (cfg : Config)
    (errs : Nat → JsErr) (h0 : Option String)
    (hatt : ∀ i, srv.gqlAttempt i = .error (errs i))
    (hnet : ∀ i, retryNetworkError (errs i) = true) :
    ∀ (N D a f : Nat) (tok : Option String),
      requestWithRetry srv cfg N D ⟨⟨tok, some h0⟩, a, f⟩ =
        (.error (errs (a + N)), transientTrace a D N,
          ⟨⟨tok, some h0⟩, a + N + 1, f⟩) := by
  intro N
  induction N with
  | zero =>
    intro D a f tok
    rw [requestWithRetry.eq_def]
    simp [buildClient, hatt a, transientTrace]
  | succ m ih =>
    intro D a f tok
    rw [requestWithRetry.eq_def]
    have hm : 0 < m + 1 ∧ retryNetworkError (errs a) = true := ⟨by omega, hnet a⟩
    simp only [buildClient, hatt a, hm, and_self, dif_pos]
    rw [show m + 1 - 1 = m from rfl]
    rw [ih (D * 2) (a + 1) f tok]
    have h1 : a + 1 + m = a + (m + 1) := by omega
    have h2 : a + 1 + m + 1 = a + (m + 1) + 1 := by omega
    simp [transientTrace, h1, h2]

/-- C4 witness: budget 2, initial delay 7, constant `ECONNRESET` failures:
three attempts, waits of 7 and 14, the error re-raised, state unchanged. -/
theorem c4_transient_retry_exhaustion_witness :
    (∀ i, (Server.mk (fun _ => .ok ⟨200, some "tok"⟩)
      (fun _ => .error ⟨some "ECONNRESET", "boom", none⟩)).gqlAttempt i =
        .error ((fun _ : Nat => (⟨some "ECONNRESET", "boom", none⟩ : JsErr)) i)) ∧
    (∀ i, retryNetworkError
      ((fun _ : Nat => (⟨some "ECONNRESET", "boom", none⟩ : JsErr)) i) = true) ∧
    requestWithRetry (Server.mk (fun _ => .ok ⟨200, some "tok"⟩)
        (fun _ => .error ⟨some "ECONNRESET", "boom", none⟩)) ⟨5, 1000⟩ 2 7
        ⟨⟨some "t", some (some "t")⟩, 0, 0⟩ =
      (.error ((fun _ : Nat => (⟨some "ECONNRESET", "boom", none⟩ : JsErr)) (0 + 2)),
        transientTrace 0 7 2, ⟨⟨some "t", some (some "t")⟩, 0 + 2 + 1, 0⟩) :=
  ⟨fun _ => rfl, fun _ => rfl,
    c4_transient_retry_exhaustion
      (Server.mk (fun _ => .ok ⟨200, some "tok"⟩)
        (fun _ => .error ⟨some "ECONNRESET", "boom", none⟩)) ⟨5, 1000⟩
      (fun _ => ⟨some "ECONNRESET", "boom", none⟩) (some "t")
      (fun _ => rfl) (fun _ => rfl) 2 7 0 0 (some "t")⟩

/-- C5 counterexample: with a token already cached, calling `authenticate()`
on the current client is not a no-op: it performs another OAuth exchange (an
`oauth` event) and returns the freshly fetched token, overwriting the cached
one, rather than returning the cached value. -/
theorem c5_counterexample :
    authenticate (Server.mk (fun _ => .ok ⟨200, some "fresh"⟩) (fun _ => .ok "p"))
        ⟨5, 1000⟩ ⟨⟨some "cached", none⟩, 0, 0⟩ =
      (.ok (some "fresh"), [Ev.oauth 0], ⟨⟨some "fresh", none⟩, 0, 1⟩) ∧
    ([Ev.oauth 0] : List Ev) ≠ [] ∧
    (some "fresh" : Option String) ≠ some "cached" := by
  refine ⟨?_, by simp, by simp⟩
  rw [authenticate, authenticateRequestWithRetry.eq_def]
  simp

/-- C5 amended: while a truthy (non-empty) token is cached, the request path
performs no OAuth exchange — the legacy `getOAuthAccessToken` returns the
cached token with no network event and unchanged state, and `buildClient`
emits no event at all (in particular no `oauth` exchange) — but a direct
`authenticate()` call on the current client always re-runs the exchange (see
the counterexample); a cached empty string is falsy in JavaScript and is
treated by both guards like an absent token. -/
theorem c5_amended_cached_token_no_exchange (srv : Server) (cfg : Config)
    (w : World) (t : String) (hcache : w.st.gqlAccessToken = some t)
    (ht : t ≠ "") :
    getOAuthAccessToken srv w = (.ok (some t), [], w) ∧
    (buildClient srv cfg w).2.1 = [] := by
  have htr : truthyStr (some t) = true := by simp [truthyStr, ht]
  constructor
  · simp [getOAuthAccessToken, hcache, htr]
  · cases hc : w.st.gqlClient with
    | some h => simp [buildClient, hc]
    | none => simp [buildClient, hc, hcache, htr]

/-- C5 amended witness: the amended property on a concrete cached non-empty
token. -/
theorem c5_amended_cached_token_no_exchange_witness :
    (⟨⟨some "cached", none⟩, 0, 0⟩ : World).st.gqlAccessToken = some "cached" ∧
    ("cached" : String) ≠ "" ∧
    (getOAuthAccessToken (Server.mk (fun _ => .ok ⟨200, some "fresh"⟩) (fun _ => .ok "p"))
        ⟨⟨some "cached", none⟩, 0, 0⟩ =
      (.ok (some "cached"), [], ⟨⟨some "cached", none⟩, 0, 0⟩) ∧
     (buildClient (Server.mk (fun _ => .ok ⟨200, some "fresh"⟩) (fun _ => .ok "p"))
        ⟨5, 1000⟩ ⟨⟨some "cached", none⟩, 0, 0⟩).2.1 = []) :=
  ⟨rfl, by decide,
    c5_amended_cached_token_no_exchange _ ⟨5, 1000⟩ _ "cached" rfl (by decide)⟩

/-- C8 counterexample: a config whose `client`, `client.id` and
`client.secret` keys are all present still throws "Missing client id" when
the id is the empty string, because the source's truthiness check treats the
empty string like an absent value. -/
theorem c8_counterexample :
    constructClient "https://pbx" ⟨some ⟨some "", some "s"⟩, none, none, none⟩ =
      .error "Missing client id" ∧
    (some (⟨some "", some "s"⟩ : ClientCredentials)).isSome = true ∧
    (some "" : Option String).isSome = true ∧
    (some "s" : Option String).isSome = true := by
  exact ⟨rfl, rfl, rfl, rfl⟩

/-- C8 amended: construction throws synchronously (no network model is even
involved) when `config.client` is absent, or when `client.id` or
`client.secret` is absent or empty (falsy); it succeeds when all three are
present and non-empty. -/
theorem c8_amended_construction_validation (baseUrl : String)
    (cfg : ConstructorConfig) :
    (cfg.client = none →
      constructClient baseUrl cfg = .error "Missing client configuration") ∧
    (∀ c, cfg.client = some c → truthyStr c.id = false →
      constructClient baseUrl cfg = .error "Missing client id") ∧
    (∀ c, cfg.client = some c → truthyStr c.id = true →
      truthyStr c.secret = false →
      constructClient baseUrl cfg = .error "Missing client secret") ∧
    (∀ c, cfg.client = some c → truthyStr c.id = true →
      truthyStr c.secret = true →
      (constructClient baseUrl cfg).isOk = true) := by
  refine ⟨?_, ?_, ?_, ?_⟩
  · intro h; simp [constructClient, h]
  · intro c hc hid; simp [constructClient, hc, hid]
  · intro c hc hid hsec; simp [constructClient, hc, hid, hsec]
  · intro c hc hid hsec
    simp [constructClient, hc, hid, hsec, Except.isOk, Except.toBool]

/-- C8 amended witness: the four validation branches at concrete configs. -/
theorem c8_amended_construction_validation_witness :
    constructClient "https://pbx" ⟨none, none, none, none⟩ =
      .error "Missing client configuration" ∧
    constructClient "https://pbx" ⟨some ⟨none, some "s"⟩, none, none, none⟩ =
      .error "Missing client id" ∧
    constructClient "https://pbx" ⟨some ⟨some "i", some ""⟩, none, none, none⟩ =
      .error "Missing client secret" ∧
    (constructClient "https://pbx" ⟨some ⟨some "i", some "s"⟩, none, none, none⟩).isOk
      = true :=
  ⟨(c8_amended_construction_validation "https://pbx" ⟨none, none, none, none⟩).1 rfl,
   (c8_amended_construction_validation "https://pbx"
      ⟨some ⟨none, some "s"⟩, none, none, none⟩).2.1 ⟨none, some "s"⟩ rfl rfl,
   (c8_amended_construction_validation "https://pbx"
      ⟨some ⟨some "i", some ""⟩, none, none, none⟩).2.2.1 ⟨some "i", some ""⟩ rfl
      (by decide) rfl,
   (c8_amended_construction_validation "https://pbx"
      ⟨some ⟨some "i", some "s"⟩, none, none, none⟩).2.2.2 ⟨some "i", some "s"⟩ rfl
      (by decide) (by decide)⟩

end FreepbxGql
